import Mathlib

/-!
# Verification of the satellite telemetry monitor

A shallow embedding of `src/satellite_monitor.py`: a monitor that parses
pipe-delimited telemetry records, tracks readings per (satellite id,
component) key, detects three threshold-violating readings clustered
within a 5-minute window, and emits deduplicated alerts.

Modelling conventions:
* Python `datetime` values are embedded as a `DateTime` structure; ordering
  and subtraction go through `toMicro`, the absolute microsecond count
  (Python's `toordinal`-based arithmetic).
* Python floats are embedded as `ℚ`; `float(...)` is modelled for finite
  decimal / scientific literals (`inf`/`nan` and `_` separators are outside
  the model).
* Python's stable `list.sort(key=timestamp)` is modelled by the stable
  `List.insertionSort` on the timestamp order.
* Exceptions (`IndexError`, `ValueError`) become an explicit `PyError`
  value in `Except`, recording which field failed.
-/

namespace SatMon

/-- Whitespace characters stripped by Python `str.strip()`. -/
def isSpace (c : Char) : Bool :=
  c = ' ' || c = '\t' || c = '\n' || c = '\r' || c = '\x0b' || c = '\x0c'

/-- Python `str.strip()`: drop leading and trailing whitespace. -/
def strip (s : String) : String :=
  String.mk (((s.data.dropWhile isSpace).reverse.dropWhile isSpace).reverse)

/-- Splitting a character list at `'|'`; mirrors Python `str.split('|')`
(`"".split('|') = ['']`, empty pieces kept). Structural so that it
evaluates by `rfl`. -/
def splitBar : List Char → List (List Char)
  | [] => [[]]
  | c :: rest =>
    let r := splitBar rest
    if c = '|' then [] :: r
    else
      match r with
      | h :: t => (c :: h) :: t
      | [] => [[c]]

/-- Python `line.strip().split('|')`. -/
def splitFields (line : String) : List String :=
  (splitBar (strip line).data).map String.mk

/-- Numeric value of a decimal digit character. -/
def digitVal (c : Char) : Nat := c.toNat - 48

/-- Value of a list of decimal digit characters, most significant first. -/
def natOfDigits (cs : List Char) : Nat :=
  cs.foldl (fun acc c => 10 * acc + digitVal c) 0

/-- Optional sign prefix: returns the sign (`1` or `-1`) and the rest. -/
def parseSign : List Char → Int × List Char
  | '+' :: rest => (1, rest)
  | '-' :: rest => (-1, rest)
  | cs => (1, cs)

/-- Python `int(s)`: strip, optional sign, one or more decimal digits. -/
def parseInt (s : String) : Option Int :=
  let cs := (strip s).data
  let (sign, cs) := parseSign cs
  let ds := cs.takeWhile Char.isDigit
  let rest := cs.dropWhile Char.isDigit
  if ds.isEmpty || !rest.isEmpty then none
  else some (sign * (natOfDigits ds : Int))

/-- An exponent suffix `[+-]\d+` ending the literal. -/
def parseExp (cs : List Char) : Option Int :=
  let (esign, cs) := parseSign cs
  let eds := cs.takeWhile Char.isDigit
  let rest := cs.dropWhile Char.isDigit
  if eds.isEmpty || !rest.isEmpty then none
  else some (esign * (natOfDigits eds : Int))

/-- Python `float(s)` on finite decimal / scientific literals: strip,
optional sign, digits with optional fractional part (at least one digit in
total), optional exponent. The value is assembled with `mkRat` so that it
evaluates inside the kernel. -/
def parseFloat (s : String) : Option ℚ :=
  let cs := (strip s).data
  let (sign, cs) := parseSign cs
  let ip := cs.takeWhile Char.isDigit
  let cs := cs.dropWhile Char.isDigit
  let (fp, cs) :=
    match cs with
    | '.' :: rest => (rest.takeWhile Char.isDigit, rest.dropWhile Char.isDigit)
    | _ => ([], cs)
  if ip.isEmpty && fp.isEmpty then none
  else
    let mant : Int := sign * (natOfDigits (ip ++ fp) : Int)
    let readExp : Option Int :=
      match cs with
      | [] => some 0
      | 'e' :: rest => parseExp rest
      | 'E' :: rest => parseExp rest
      | _ => none
    match readExp with
    | none => none
    | some e =>
      let e' : Int := e - (fp.length : Int)
      if 0 ≤ e' then some (mkRat (mant * ((10 ^ e'.toNat : Nat) : Int)) 1)
      else some (mkRat mant (10 ^ (-e').toNat))

/-! ## Datetimes (Python `datetime`) -/

/-- A parsed Python `datetime` (no timezone, microsecond resolution). -/
structure DateTime where
  year : Nat
  month : Nat
  day : Nat
  hour : Nat
  minute : Nat
  second : Nat
  microsecond : Nat
deriving DecidableEq, Repr

/-- Gregorian leap year, as in Python's `calendar`/`datetime`. -/
def isLeap (y : Nat) : Bool :=
  (y % 4 = 0 && y % 100 ≠ 0) || y % 400 = 0

/-- Days in a month of a given year. -/
def daysInMonth (y m : Nat) : Nat :=
  if m = 2 then (if isLeap y then 29 else 28)
  else if m = 4 || m = 6 || m = 9 || m = 11 then 30
  else 31

/-- Days before January 1 of year `y` (Python `datetime._days_before_year`). -/
def daysBeforeYear (y : Nat) : Nat :=
  (y - 1) * 365 + (y - 1) / 4 - (y - 1) / 100 + (y - 1) / 400

/-- Days in year `y` before the first of month `m`. -/
def daysBeforeMonth (y m : Nat) : Nat :=
  ((List.range (m - 1)).map (fun k => daysInMonth y (k + 1))).sum

/-- Python `datetime.toordinal`: day count with 0001-01-01 as day 1. -/
def toOrdinal (dt : DateTime) : Nat :=
  daysBeforeYear dt.year + daysBeforeMonth dt.year dt.month + dt.day

/-- Absolute microseconds of a datetime; Python datetime comparison and
subtraction agree with comparison and subtraction of this count. -/
def toMicro (dt : DateTime) : Nat :=
  (((toOrdinal dt * 24 + dt.hour) * 60 + dt.minute) * 60 + dt.second) * 1000000
    + dt.microsecond

/-! ### `strptime` for the two accepted formats

Each field parser mirrors the regular expression Python `_strptime` uses
for the corresponding directive (`%Y`: `\d{4}`; `%m`: `1[0-2]|0[1-9]|[1-9]`;
`%d`: `3[01]|[1-2]\d|0[1-9]|[1-9]`; `%H`: `2[0-3]|[0-1]\d|\d`;
`%M`,`%S`: `[0-5]\d|\d`; `%f`: `\d{1,6}`, right-padded to microseconds;
a space in the format: one or more whitespace characters). -/

/-- `%Y`: exactly four digits. -/
def parseY : List Char → Option (Nat × List Char)
  | c1 :: c2 :: c3 :: c4 :: rest =>
    if c1.isDigit && c2.isDigit && c3.isDigit && c4.isDigit then
      some (1000 * digitVal c1 + 100 * digitVal c2 + 10 * digitVal c3 + digitVal c4, rest)
    else none
  | _ => none

/-- `%m`: `1[0-2]|0[1-9]|[1-9]`. -/
def parseM : List Char → Option (Nat × List Char)
  | c1 :: c2 :: rest =>
    if c1 = '1' && ('0' ≤ c2 && c2 ≤ '2') then some (10 + digitVal c2, rest)
    else if c1 = '0' && ('1' ≤ c2 && c2 ≤ '9') then some (digitVal c2, rest)
    else if '1' ≤ c1 && c1 ≤ '9' then some (digitVal c1, c2 :: rest)
    else none
  | [c1] => if '1' ≤ c1 && c1 ≤ '9' then some (digitVal c1, []) else none
  | [] => none

/-- `%d`: `3[01]|[1-2]\d|0[1-9]|[1-9]`. -/
def parseD : List Char → Option (Nat × List Char)
  | c1 :: c2 :: rest =>
    if c1 = '3' && (c2 = '0' || c2 = '1') then some (30 + digitVal c2, rest)
    else if ('1' ≤ c1 && c1 ≤ '2') && c2.isDigit then
      some (10 * digitVal c1 + digitVal c2, rest)
    else if c1 = '0' && ('1' ≤ c2 && c2 ≤ '9') then some (digitVal c2, rest)
    else if '1' ≤ c1 && c1 ≤ '9' then some (digitVal c1, c2 :: rest)
    else none
  | [c1] => if '1' ≤ c1 && c1 ≤ '9' then some (digitVal c1, []) else none
  | [] => none

/-- `%H`: `2[0-3]|[0-1]\d|\d`. -/
def parseH : List Char → Option (Nat × List Char)
  | c1 :: c2 :: rest =>
    if c1 = '2' && ('0' ≤ c2 && c2 ≤ '3') then some (20 + digitVal c2, rest)
    else if (c1 = '0' || c1 = '1') && c2.isDigit then
      some (10 * digitVal c1 + digitVal c2, rest)
    else if c1.isDigit then some (digitVal c1, c2 :: rest)
    else none
  | [c1] => if c1.isDigit then some (digitVal c1, []) else none
  | [] => none

/-- `%M` and `%S`: `[0-5]\d|\d`. -/
def parseMS : List Char → Option (Nat × List Char)
  | c1 :: c2 :: rest =>
    if ('0' ≤ c1 && c1 ≤ '5') && c2.isDigit then
      some (10 * digitVal c1 + digitVal c2, rest)
    else if c1.isDigit then some (digitVal c1, c2 :: rest)
    else none
  | [c1] => if c1.isDigit then some (digitVal c1, []) else none
  | [] => none

/-- A whitespace run (a space in a `strptime` format matches `\s+`). -/
def parseWs : List Char → Option (List Char)
  | c :: rest => if isSpace c then some (rest.dropWhile isSpace) else none
  | [] => none

/-- One literal character of the format. -/
def parseLit (c : Char) : List Char → Option (List Char)
  | c' :: rest => if c' = c then some rest else none
  | [] => none

/-- `%f`: one to six digits, right-padded with zeros to microseconds
(Python pads the captured fraction with `"0"` to length 6). -/
def parseF (cs : List Char) : Option (Nat × List Char) :=
  let ds := (cs.takeWhile Char.isDigit).take 6
  let rest := cs.drop ds.length
  if ds.isEmpty then none
  else some (natOfDigits ds * 10 ^ (6 - ds.length), rest)

/-- The `datetime` constructor checks `strptime`'s captures do not already
enforce: year within `MINYEAR..MAXYEAR` and day within the month. -/
def mkDateTime (y mo d h mi s micro : Nat) : Option DateTime :=
  if 1 ≤ y ∧ d ≤ daysInMonth y mo then
    some ⟨y, mo, d, h, mi, s, micro⟩
  else none

/-- The shared prefix `'%Y%m%d %H:%M:%S'` of both accepted formats:
returns the six captured numbers and the unconsumed characters. -/
def parseStamp (cs : List Char) :
    Option (Nat × Nat × Nat × Nat × Nat × Nat × List Char) := do
  let (y, cs) ← parseY cs
  let (mo, cs) ← parseM cs
  let (d, cs) ← parseD cs
  let cs ← parseWs cs
  let (h, cs) ← parseH cs
  let cs ← parseLit ':' cs
  let (mi, cs) ← parseMS cs
  let cs ← parseLit ':' cs
  let (s, cs) ← parseMS cs
  pure (y, mo, d, h, mi, s, cs)

/-- `datetime.strptime(text, '%Y%m%d %H:%M:%S.%f')`. -/
def parseTsFrac (text : String) : Option DateTime := do
  let (y, mo, d, h, mi, s, cs) ← parseStamp text.data
  let cs ← parseLit '.' cs
  let (micro, cs) ← parseF cs
  match cs with
  | [] => mkDateTime y mo d h mi s micro
  | _ => none

/-- `datetime.strptime(text, '%Y%m%d %H:%M:%S')` (microseconds default
to zero). -/
def parseTsWhole (text : String) : Option DateTime := do
  let (y, mo, d, h, mi, s, cs) ← parseStamp text.data
  match cs with
  | [] => mkDateTime y mo d h mi s 0
  | _ => none

/-- The two-format fallback used both at ingest (`process_telemetry`) and
at output (`get_alerts`): try the fractional-seconds format first, fall
back to the whole-second format. -/
def parseTimestampTwo (text : String) : Option DateTime :=
  match parseTsFrac text with
  | some dt => some dt
  | none => parseTsWhole text

/-! ## Data model -/

/-- The exceptions the program can raise while handling one record, with
the field index (position in the pipe-split record) the failure concerns. -/
inductive PyError where
  /-- `IndexError`: `fields[idx]` with too few fields. -/
  | indexError (idx : Nat)
  /-- `ValueError` from `int(fields[idx])`. -/
  | intError (idx : Nat) (text : String)
  /-- `ValueError` from `float(fields[idx])`. -/
  | floatError (idx : Nat) (text : String)
  /-- `ValueError` from `datetime.strptime` (neither format matched). -/
  | strptimeError (text : String)
deriving DecidableEq, Repr

/-- The field position a `PyError` identifies, if any. -/
def PyError.fieldIdx : PyError → Option Nat
  | .indexError idx => some idx
  | .intError idx _ => some idx
  | .floatError idx _ => some idx
  | .strptimeError _ => none

/-- The dict returned by `parse_line`. -/
structure ParsedData where
  timestamp : String
  satelliteId : Int
  red_high_limit : ℚ
  yellow_high_limit : ℚ
  yellow_low_limit : ℚ
  red_low_limit : ℚ
  raw_value : ℚ
  component : String
deriving DecidableEq, Repr

/-- One tracked reading (the dict appended to `self.readings[key]`):
the parsed timestamp (as absolute microseconds), the raw value, the
selected limit, and the original timestamp text kept for output. -/
structure Reading where
  timestamp : Nat
  value : ℚ
  limit : ℚ
  original : String
deriving DecidableEq, Repr

instance : Inhabited Reading := ⟨⟨0, 0, 0, ""⟩⟩

/-- One alert dict; `timestamp` is the first violating reading's original
timestamp text. -/
structure Alert where
  satelliteId : Int
  severity : String
  component : String
  timestamp : String
deriving DecidableEq, Repr

instance {ε α : Type} [DecidableEq ε] [DecidableEq α] : DecidableEq (Except ε α) :=
  fun a b =>
    match a, b with
    | .ok x, .ok y =>
      if h : x = y then .isTrue (by rw [h])
      else .isFalse (by intro hc; cases hc; exact h rfl)
    | .error x, .error y =>
      if h : x = y then .isTrue (by rw [h])
      else .isFalse (by intro hc; cases hc; exact h rfl)
    | .ok _, .error _ => .isFalse (by intro hc; cases hc)
    | .error _, .ok _ => .isFalse (by intro hc; cases hc)

/-- The monitor's mutable state: `self.readings` (a `defaultdict(list)`)
and `self.alerts`. -/
structure MonitorState where
  readings : Int × String → List Reading
  alerts : List Alert

/-- `SatelliteMonitor.__init__`. -/
def initState : MonitorState := ⟨fun _ => [], []⟩

/-- Pointwise map update (`self.readings[key] = v` semantics). -/
def upd (f : Int × String → List Reading) (k : Int × String)
    (v : List Reading) : Int × String → List Reading :=
  fun x => if x = k then v else f x

/-- `self.time_window = timedelta(minutes=5)`, in microseconds. -/
def timeWindow : Nat := 300000000

/-! ## parse_line -/

/-- `fields[j]` (raising `IndexError` when out of range). -/
def strField (fields : List String) (j : Nat) : Except PyError String :=
  match fields[j]? with
  | some t => .ok t
  | none => .error (.indexError j)

/-- `int(fields[j])`. -/
def intField (fields : List String) (j : Nat) : Except PyError Int :=
  match fields[j]? with
  | none => .error (.indexError j)
  | some t =>
    match parseInt t with
    | some n => .ok n
    | none => .error (.intError j t)

/-- `float(fields[j])`. -/
def floatField (fields : List String) (j : Nat) : Except PyError ℚ :=
  match fields[j]? with
  | none => .error (.indexError j)
  | some t =>
    match parseFloat t with
    | some q => .ok q
    | none => .error (.floatError j t)

/-- `SatelliteMonitor.parse_line`: split the stripped line on `'|'` and
build the record, evaluating the eight field expressions in source order
so the first failing field determines the raised error. -/
def parse_line (line : String) : Except PyError ParsedData := do
  let fields := splitFields line
  let ts ← strField fields 0
  let sid ← intField fields 1
  let rh ← floatField fields 2
  let yh ← floatField fields 3
  let yl ← floatField fields 4
  let rl ← floatField fields 5
  let rv ← floatField fields 6
  let comp ← strField fields 7
  pure ⟨ts, sid, rh, yh, yl, rl, rv, comp⟩

/-- Whether field `j` of a split record is faulty for `parse_line`:
missing entirely, or (for the numeric positions: the integer satellite id
at 1, the four limits and the raw value at 2–6) malformed numeric text. -/
def fieldFault (fields : List String) (j : Nat) : Bool :=
  match fields[j]? with
  | none => true
  | some t =>
    if j = 1 then (parseInt t).isNone
    else if 2 ≤ j ∧ j ≤ 6 then (parseFloat t).isNone
    else false

/-! ## check_violations -/

/-- The per-component violation filter and severity label of
`check_violations` (the `if component == 'TSTAT' / elif 'BATT' / else`
branches); `none` for an unknown component (early return). -/
def violationFilter (component : String) (rs : List Reading) :
    Option (List Reading × String) :=
  if component = "TSTAT" then
    some (rs.filter (fun r => decide (r.value > r.limit)), "RED HIGH")
  else if component = "BATT" then
    some (rs.filter (fun r => decide (r.value < r.limit)), "RED LOW")
  else none

/-- The severity label attached to a component's alerts, when it has one. -/
def severityOf (component : String) : Option String :=
  if component = "TSTAT" then some "RED HIGH"
  else if component = "BATT" then some "RED LOW"
  else none

/-- Timestamp order on readings (the `key=lambda x: x['timestamp']` sort
key). -/
def tsLe (a b : Reading) : Prop := a.timestamp ≤ b.timestamp

instance : DecidableRel tsLe := fun a b => Nat.decLe a.timestamp b.timestamp

instance : IsTotal Reading tsLe := ⟨fun a b => Nat.le_total a.timestamp b.timestamp⟩

instance : IsTrans Reading tsLe := ⟨fun _ _ _ h1 h2 => Nat.le_trans h1 h2⟩

/-- `violating_readings.sort(key=lambda x: x['timestamp'])`: a stable sort
by timestamp (Python's `list.sort` is stable; so is insertion sort). -/
def sortReadings (l : List Reading) : List Reading := l.insertionSort tsLe

/-- The clustering loop of `check_violations`: scan starting indices in
order; at the first index whose first and third readings are within the
window, return the first reading (the loop body builds the alert from it
and `break`s); `none` when no index qualifies. -/
def findCluster : List Reading → Option Reading
  | r1 :: r2 :: r3 :: rest =>
    if r3.timestamp - r1.timestamp ≤ timeWindow then some r1
    else findCluster (r2 :: r3 :: rest)
  | _ => none

/-- `if alert not in self.alerts: self.alerts.append(alert)`. -/
def pushIfNew (alerts : List Alert) (a : Alert) : List Alert :=
  if a ∈ alerts then alerts else alerts ++ [a]

/-- `SatelliteMonitor.check_violations`. -/
def check_violations (s : MonitorState) (key : Int × String) : MonitorState :=
  match violationFilter key.2 (s.readings key) with
  | none => s
  | some (violating, severity) =>
    if 3 ≤ violating.length then
      match findCluster (sortReadings violating) with
      | some r1 =>
        { s with alerts := pushIfNew s.alerts ⟨key.1, severity, key.2, r1.original⟩ }
      | none => s
    else s

/-- The timestamp-sorted violating subsequence `check_violations` scans
for the given key (empty for an unknown component). -/
def sortedViolating (s : MonitorState) (key : Int × String) : List Reading :=
  match violationFilter key.2 (s.readings key) with
  | none => []
  | some (v, _) => sortReadings v

/-- The (unsorted) violating subsequence of a reading list for a
component: the list `check_violations` builds before sorting (empty for
an unknown component). -/
def violatingOf (component : String) (rs : List Reading) : List Reading :=
  match violationFilter component rs with
  | none => []
  | some (v, _) => v

/-- Whether scan index `i` finds a qualifying cluster in `l`: both
`l[i]` and `l[i+2]` exist and their timestamps are within the window. -/
def qualifiesAt (l : List Reading) (i : Nat) : Bool :=
  match l.get? i, l.get? (i + 2) with
  | some a, some b => b.timestamp - a.timestamp ≤ timeWindow
  | _, _ => false

/-! ## process_telemetry and the file pipeline -/

/-- The reading dict `process_telemetry` appends: parsed timestamp, raw
value, the limit selected by component (`red_high_limit` for `TSTAT`,
`red_low_limit` otherwise), and the original timestamp text. -/
def mkReading (data : ParsedData) (dt : DateTime) : Reading :=
  { timestamp := toMicro dt
    value := data.raw_value
    limit := if data.component = "TSTAT" then data.red_high_limit
             else data.red_low_limit
    original := data.timestamp }

/-- `SatelliteMonitor.process_telemetry`: parse the timestamp with the
two-format fallback (an unmatched timestamp raises `ValueError`), append
the reading to its key's history, and run `check_violations`. -/
def process_telemetry (s : MonitorState) (data : ParsedData) :
    Except PyError MonitorState :=
  match parseTimestampTwo data.timestamp with
  | none => .error (.strptimeError data.timestamp)
  | some dt =>
    let key := (data.satelliteId, data.component)
    let s' : MonitorState :=
      { s with readings := upd s.readings key (s.readings key ++ [mkReading data dt]) }
    .ok (check_violations s' key)

/-- One iteration of `process_file`'s loop: skip blank lines, otherwise
parse and process (errors propagate, nothing is caught). -/
def processLine (s : MonitorState) (line : String) : Except PyError MonitorState :=
  if strip line = "" then .ok s
  else do process_telemetry s (← parse_line line)

/-- `SatelliteMonitor.process_file`, over an in-memory list of lines. -/
def process_file (s : MonitorState) (lines : List String) :
    Except PyError MonitorState :=
  lines.foldlM processLine s

/-- The alert list produced by running the pipeline from a fresh monitor. -/
def runAlerts (lines : List String) : Except PyError (List Alert) :=
  (process_file initState lines).map MonitorState.alerts

/-! ## get_alerts (output formatting) -/

/-- The low `w` decimal digits of `n`, zero-padded to width `w` (the
behaviour of `%0wd`-style padding for in-range values). -/
def padDigits : Nat → Nat → List Char
  | 0, _ => []
  | w + 1, n => padDigits w (n / 10) ++ [Char.ofNat (48 + n % 10)]

/-- Everything of `dt.strftime('%Y-%m-%dT%H:%M:%S.%f')` before the six
`%f` digits, including the dot. -/
def isoHead (dt : DateTime) : List Char :=
  padDigits 4 dt.year ++ ['-'] ++ padDigits 2 dt.month ++ ['-'] ++ padDigits 2 dt.day
    ++ ['T'] ++ padDigits 2 dt.hour ++ [':'] ++ padDigits 2 dt.minute
    ++ [':'] ++ padDigits 2 dt.second ++ ['.']

/-- `dt.strftime('%Y-%m-%dT%H:%M:%S.%f')` as a character list (`%f` is
the microsecond count zero-padded to six digits). -/
def strftimeIso (dt : DateTime) : List Char :=
  isoHead dt ++ padDigits 6 dt.microsecond

/-- The per-alert timestamp formatting of `get_alerts`: re-parse the
stored original text with the two-format fallback, then
`dt.strftime('%Y-%m-%dT%H:%M:%S.%f')[:-3] + 'Z'`. -/
def format_alert_timestamp (text : String) : Except PyError String :=
  match parseTimestampTwo text with
  | none => .error (.strptimeError text)
  | some dt =>
    let cs := strftimeIso dt
    .ok (String.mk (cs.take (cs.length - 3)) ++ "Z")

/-- The loop body of `get_alerts` over the alert list: each alert is
re-emitted with its timestamp text rendered by `format_alert_timestamp`
(an alert whose stored text matches neither format raises, aborting). -/
def formatAlerts : List Alert → Except PyError (List Alert)
  | [] => .ok []
  | a :: rest => do
    let ts ← format_alert_timestamp a.timestamp
    let tail ← formatAlerts rest
    pure (⟨a.satelliteId, a.severity, a.component, ts⟩ :: tail)

/-- `SatelliteMonitor.get_alerts` (the surrounding `json.dumps`
serialization is I/O glue outside the model). -/
def get_alerts (s : MonitorState) : Except PyError (List Alert) :=
  formatAlerts s.alerts

/-! ## Concrete instances used by the witness theorems -/

/-- A reading whose value sits exactly on its limit. -/
def readingEq : Reading := ⟨0, 10, 10, "t"⟩

/-- Three violating battery readings spanning 299 seconds. -/
def stateC1 : MonitorState :=
  ⟨upd (fun _ => []) (7, "BATT")
    [⟨0, 5, 10, "t0"⟩, ⟨120000000, 5, 10, "t1"⟩, ⟨299000000, 5, 10, "t2"⟩], []⟩

/-- A record for satellite 7's battery, below the red-low limit. -/
def dataC2 : ParsedData :=
  ⟨"20240101 00:00:00.000", 7, 100, 90, 20, 10, 5, "BATT"⟩

/-- The state after ingesting `dataC2` into a fresh monitor. -/
def stateC2 : MonitorState :=
  match process_telemetry initState dataC2 with
  | .ok s => s
  | .error _ => initState

/-- Three violating battery readings whose first-to-third span is exactly
the 5-minute window. -/
def stateC4a : MonitorState :=
  ⟨upd (fun _ => []) (7, "BATT")
    [⟨0, 5, 10, "a0"⟩, ⟨100, 5, 10, "a1"⟩, ⟨300000000, 5, 10, "a2"⟩], []⟩

/-- Three violating battery readings whose first-to-third span is the
5-minute window plus one microsecond. -/
def stateC4b : MonitorState :=
  ⟨upd (fun _ => []) (7, "BATT")
    [⟨0, 5, 10, "b0"⟩, ⟨100, 5, 10, "b1"⟩, ⟨300000001, 5, 10, "b2"⟩], []⟩

/-- A record with an unrecognized component code. -/
def dataC6 : ParsedData :=
  ⟨"20240101 00:00:00.000", 7, 100, 90, 20, 10, 5, "GYRO"⟩

/-- The state after ingesting `dataC6` into a fresh monitor. -/
def stateC6 : MonitorState :=
  match process_telemetry initState dataC6 with
  | .ok s => s
  | .error _ => initState

/-- A thermostat record whose raw value exceeds the red-high limit. -/
def dataC7 : ParsedData :=
  ⟨"20240101 00:00:00", 42, 101, 98, 25, 20, 150, "TSTAT"⟩

/-- The state after ingesting `dataC7` into a fresh monitor. -/
def stateC7 : MonitorState :=
  match process_telemetry initState dataC7 with
  | .ok s => s
  | .error _ => initState

/-! ## Helper lemmas -/

lemma exbind_ok {α β : Type} (a : α) (f : α → Except PyError β) :
    (Except.ok a >>= f) = f a := rfl

lemma exbind_error {α β : Type} (e : PyError) (f : α → Except PyError β) :
    ((Except.error e : Except PyError α) >>= f) = Except.error e := rfl

lemma expure {α : Type} (a : α) : (pure a : Except PyError α) = Except.ok a := rfl

/-- Shifting the scan index across a leading element. -/
lemma qualifiesAt_cons (a : Reading) (t : List Reading) (j : Nat) :
    qualifiesAt (a :: t) (j + 1) = qualifiesAt t j := rfl

/-- A qualifying scan index has its third reading inside the list. -/
lemma qualifiesAt_length {l : List Reading} {i : Nat}
    (h : qualifiesAt l i = true) : i + 2 < l.length := by
  unfold qualifiesAt at h
  rcases hg : l.get? (i + 2) with _ | b
  · rw [hg] at h
    rcases l.get? i with _ | a <;> simp at h
  · by_contra hlt
    have hnone : l.get? (i + 2) = none := List.get?_eq_none.mpr (by omega)
    rw [hnone] at hg
    exact Option.noConfusion hg

/-- Index 0 of a three-or-more element list qualifies exactly when the
first and third timestamps are within the window. -/
lemma qualifiesAt_cons3_zero (r1 r2 r3 : Reading) (t : List Reading) :
    qualifiesAt (r1 :: r2 :: r3 :: t) 0
      = decide (r3.timestamp - r1.timestamp ≤ timeWindow) := rfl

/-- The scan returns the first reading of the first qualifying index. -/
lemma findCluster_eq_some :
    ∀ (i : Nat) (l : List Reading) (r : Reading),
      qualifiesAt l i = true →
      (∀ j, j < i → qualifiesAt l j = false) →
      l.get? i = some r →
      findCluster l = some r := by
  intro i
  induction i with
  | zero =>
    intro l r hq _ hr
    rcases l with _ | ⟨r1, _ | ⟨r2, _ | ⟨r3, t⟩⟩⟩
    · exact absurd (qualifiesAt_length hq) (by simp)
    · exact absurd (qualifiesAt_length hq) (by simp)
    · exact absurd (qualifiesAt_length hq) (by simp)
    · have hc : r3.timestamp - r1.timestamp ≤ timeWindow :=
        of_decide_eq_true ((qualifiesAt_cons3_zero r1 r2 r3 t) ▸ hq)
      show (if r3.timestamp - r1.timestamp ≤ timeWindow then some r1
            else findCluster (r2 :: r3 :: t)) = some r
      rw [if_pos hc]
      exact hr
  | succ i ih =>
    intro l r hq hfirst hr
    rcases l with _ | ⟨r1, _ | ⟨r2, _ | ⟨r3, t⟩⟩⟩
    · exact absurd (qualifiesAt_length hq) (by simp)
    · exact absurd (qualifiesAt_length hq) (by simp)
    · exact absurd (qualifiesAt_length hq) (by simp)
    · have h0 : qualifiesAt (r1 :: r2 :: r3 :: t) 0 = false :=
        hfirst 0 (Nat.succ_pos i)
      have hc : ¬ (r3.timestamp - r1.timestamp ≤ timeWindow) :=
        of_decide_eq_false ((qualifiesAt_cons3_zero r1 r2 r3 t) ▸ h0)
      show (if r3.timestamp - r1.timestamp ≤ timeWindow then some r1
            else findCluster (r2 :: r3 :: t)) = some r
      rw [if_neg hc]
      exact ih (r2 :: r3 :: t) r hq
        (fun j hj => hfirst (j + 1) (Nat.succ_lt_succ hj)) hr

/-- When no scan index qualifies, the scan finds nothing. -/
lemma findCluster_eq_none :
    ∀ (l : List Reading), (∀ j, qualifiesAt l j = false) → findCluster l = none := by
  intro l
  induction l with
  | nil => intro _; rfl
  | cons r1 t ih =>
    intro h
    rcases t with _ | ⟨r2, _ | ⟨r3, t'⟩⟩
    · rfl
    · rfl
    · have hc : ¬ (r3.timestamp - r1.timestamp ≤ timeWindow) :=
        of_decide_eq_false ((qualifiesAt_cons3_zero r1 r2 r3 t') ▸ h 0)
      show (if r3.timestamp - r1.timestamp ≤ timeWindow then some r1
            else findCluster (r2 :: r3 :: t')) = none
      rw [if_neg hc]
      exact ih (fun j => h (j + 1))

/-- A component with a severity label has the matching filter branch. -/
lemma violationFilter_severity (c : String) (sev : String) (rs : List Reading)
    (hsev : severityOf c = some sev) :
    ∃ v, violationFilter c rs = some (v, sev) := by
  unfold severityOf at hsev
  unfold violationFilter
  by_cases h1 : c = "TSTAT"
  · rw [if_pos h1] at hsev ⊢
    exact ⟨_, by rw [Option.some.inj hsev]⟩
  · rw [if_neg h1] at hsev ⊢
    by_cases h2 : c = "BATT"
    · rw [if_pos h2] at hsev ⊢
      exact ⟨_, by rw [Option.some.inj hsev]⟩
    · rw [if_neg h2] at hsev
      exact Option.noConfusion hsev

/-- `check_violations` under a known filter result. -/
lemma check_violations_of_filter {s : MonitorState} {key : Int × String}
    {v : List Reading} {sev : String}
    (hv : violationFilter key.2 (s.readings key) = some (v, sev)) :
    check_violations s key =
      if 3 ≤ v.length then
        match findCluster (sortReadings v) with
        | some r1 =>
          { s with alerts := pushIfNew s.alerts ⟨key.1, sev, key.2, r1.original⟩ }
        | none => s
      else s := by
  unfold check_violations
  rw [hv]

/-- `check_violations` is the identity for an unknown component. -/
lemma check_violations_of_none {s : MonitorState} {key : Int × String}
    (hv : violationFilter key.2 (s.readings key) = none) :
    check_violations s key = s := by
  unfold check_violations
  rw [hv]

/-- `sortedViolating` under a known filter result. -/
lemma sortedViolating_of_filter {s : MonitorState} {key : Int × String}
    {v : List Reading} {sev : String}
    (hv : violationFilter key.2 (s.readings key) = some (v, sev)) :
    sortedViolating s key = sortReadings v := by
  unfold sortedViolating
  rw [hv]

/-- `sortedViolating` is the sorted `violatingOf` list. -/
lemma sortedViolating_eq (s : MonitorState) (key : Int × String) :
    sortedViolating s key = sortReadings (violatingOf key.2 (s.readings key)) := by
  unfold sortedViolating violatingOf
  rcases violationFilter key.2 (s.readings key) with _ | ⟨v, sev⟩
  · rfl
  · rfl

/-- One `check_violations` call leaves the alert list unchanged or
appends a single alert not previously present. -/
lemma check_violations_alerts_cases (s : MonitorState) (key : Int × String) :
    (check_violations s key).alerts = s.alerts ∨
      ∃ a, a ∉ s.alerts ∧ (check_violations s key).alerts = s.alerts ++ [a] := by
  unfold check_violations
  rcases violationFilter key.2 (s.readings key) with _ | ⟨v, sev⟩
  · exact Or.inl rfl
  · dsimp only
    by_cases h3 : 3 ≤ v.length
    · rw [if_pos h3]
      rcases findCluster (sortReadings v) with _ | r1
      · exact Or.inl rfl
      · dsimp only
        unfold pushIfNew
        by_cases hm : (⟨key.1, sev, key.2, r1.original⟩ : Alert) ∈ s.alerts
        · rw [if_pos hm]
          exact Or.inl rfl
        · rw [if_neg hm]
          exact Or.inr ⟨_, hm, rfl⟩
    · rw [if_neg h3]
      exact Or.inl rfl

/-- `check_violations` never touches the reading histories. -/
lemma check_violations_readings (s : MonitorState) (key : Int × String) :
    (check_violations s key).readings = s.readings := by
  unfold check_violations
  rcases violationFilter key.2 (s.readings key) with _ | ⟨v, sev⟩
  · rfl
  · dsimp only
    by_cases h3 : 3 ≤ v.length
    · rw [if_pos h3]
      rcases findCluster (sortReadings v) with _ | r1
      · rfl
      · rfl
    · rw [if_neg h3]

/-- Unfolding a successful `process_telemetry` call. -/
lemma process_telemetry_ok {s : MonitorState} {d : ParsedData} {s' : MonitorState}
    (h : process_telemetry s d = .ok s') :
    ∃ dt, parseTimestampTwo d.timestamp = some dt ∧
      s' = check_violations
        { s with readings := (upd s.readings (d.satelliteId, d.component)
            (s.readings (d.satelliteId, d.component) ++ [mkReading d dt])) }
        (d.satelliteId, d.component) := by
  unfold process_telemetry at h
  rcases hdt : parseTimestampTwo d.timestamp with _ | dt
  · rw [hdt] at h
    exact Except.noConfusion h
  · rw [hdt] at h
    exact ⟨dt, rfl, (Except.ok.inj h).symm⟩

/-! ## Claim theorems -/

/-- C9: whenever the clustering scan for a key is evaluated, the sequence
of that key's violating readings it scans (`sortedViolating`) is sorted
ascending by timestamp — for every state, hence also when the key's
history was appended out of timestamp order — and it is a re-sorting
(a permutation) of the key's violating readings. -/
theorem C9_sorted_before_scan (s : MonitorState) (key : Int × String) :
    (sortedViolating s key).Sorted tsLe
    ∧ (sortedViolating s key).Perm (violatingOf key.2 (s.readings key)) := by
  rw [sortedViolating_eq]
  exact ⟨List.sorted_insertionSort tsLe _, List.perm_insertionSort tsLe _⟩

/-- C3: the violation predicate is strict for both component kinds — a
THERMOSTAT reading is in the violating list iff `value > limit`, a
BATTERY reading iff `value < limit` — so a reading whose value equals its
limit is in no component's violating list and never inside the scanned
(sorted) violating sequence of any state. -/
theorem C3_strict_thresholds (rs : List Reading) (r : Reading) :
    (r ∈ violatingOf "TSTAT" rs ↔ r ∈ rs ∧ r.value > r.limit)
    ∧ (r ∈ violatingOf "BATT" rs ↔ r ∈ rs ∧ r.value < r.limit)
    ∧ (r.value = r.limit →
        (∀ c : String, r ∉ violatingOf c rs)
        ∧ ∀ (s : MonitorState) (key : Int × String), r ∉ sortedViolating s key) := by
  have hT : ∀ l : List Reading,
      violatingOf "TSTAT" l = l.filter (fun x => decide (x.value > x.limit)) := by
    intro l
    unfold violatingOf violationFilter
    rw [if_pos rfl]
  have hB : ∀ l : List Reading,
      violatingOf "BATT" l = l.filter (fun x => decide (x.value < x.limit)) := by
    intro l
    unfold violatingOf violationFilter
    rw [if_neg (by decide), if_pos rfl]
  have memT : ∀ l : List Reading, r ∈ violatingOf "TSTAT" l ↔ r ∈ l ∧ r.value > r.limit := by
    intro l
    rw [hT l, List.mem_filter, decide_eq_true_iff]
  have memB : ∀ l : List Reading, r ∈ violatingOf "BATT" l ↔ r ∈ l ∧ r.value < r.limit := by
    intro l
    rw [hB l, List.mem_filter, decide_eq_true_iff]
  have hnot : r.value = r.limit → ∀ (c : String) (l : List Reading), r ∉ violatingOf c l := by
    intro heq c l hmem
    unfold violatingOf violationFilter at hmem
    by_cases h1 : c = "TSTAT"
    · rw [if_pos h1] at hmem
      have := (List.mem_filter.mp hmem).2
      rw [decide_eq_true_iff, heq] at this
      exact lt_irrefl r.limit this
    · rw [if_neg h1] at hmem
      by_cases h2 : c = "BATT"
      · rw [if_pos h2] at hmem
        have := (List.mem_filter.mp hmem).2
        rw [decide_eq_true_iff, heq] at this
        exact lt_irrefl r.limit this
      · rw [if_neg h2] at hmem
        exact (List.not_mem_nil r) hmem
  refine ⟨memT rs, memB rs, fun heq => ⟨fun c => hnot heq c rs, ?_⟩⟩
  intro s key hmem
  rw [sortedViolating_eq] at hmem
  have : r ∈ violatingOf key.2 (s.readings key) := (List.mem_insertionSort tsLe).mp hmem
  exact hnot heq key.2 (s.readings key) this

/-- C3 witness: a concrete reading sitting exactly on its limit is not a
violating reading for either component kind. -/
theorem C3_strict_thresholds_witness :
    readingEq ∉ violatingOf "TSTAT" [readingEq]
    ∧ readingEq ∉ violatingOf "BATT" [readingEq] :=
  ⟨((C3_strict_thresholds [readingEq] readingEq).2.2 rfl).1 "TSTAT",
   ((C3_strict_thresholds [readingEq] readingEq).2.2 rfl).1 "BATT"⟩

/-- C1: for a key with a severity label (at least 3 violating readings is
forced by a qualifying index), `check_violations` scans starting indices
of the timestamp-sorted violating readings in order; at the first index
`i` whose first and third readings are within the window it emits exactly
the one alert built from `violating[i]`'s original timestamp text
(appended unless already present) and stops; with fewer than 3 violating
readings, or no qualifying index, the alert list is unchanged. -/
theorem C1_first_cluster (s : MonitorState) (key : Int × String) (sev : String)
    (hsev : severityOf key.2 = some sev) :
    (∀ i r, qualifiesAt (sortedViolating s key) i = true →
        (∀ j, j < i → qualifiesAt (sortedViolating s key) j = false) →
        (sortedViolating s key).get? i = some r →
        (check_violations s key).alerts
          = pushIfNew s.alerts ⟨key.1, sev, key.2, r.original⟩)
    ∧ ((sortedViolating s key).length < 3 →
        (check_violations s key).alerts = s.alerts)
    ∧ ((∀ j, qualifiesAt (sortedViolating s key) j = false) →
        (check_violations s key).alerts = s.alerts) := by
  obtain ⟨v, hv⟩ := violationFilter_severity key.2 sev (s.readings key) hsev
  have hsort : sortedViolating s key = sortReadings v := sortedViolating_of_filter hv
  have hcv := check_violations_of_filter hv
  have hlen : (sortReadings v).length = v.length := List.length_insertionSort tsLe v
  refine ⟨?_, ?_, ?_⟩
  · intro i r hq hfirst hr
    rw [hsort] at hq hfirst hr
    have h2 : i + 2 < (sortReadings v).length := qualifiesAt_length hq
    have h3 : 3 ≤ v.length := by omega
    rw [hcv, if_pos h3, findCluster_eq_some i (sortReadings v) r hq hfirst hr]
  · intro hlt
    rw [hsort, hlen] at hlt
    rw [hcv, if_neg (by omega)]
  · intro hall
    rw [hsort] at hall
    by_cases h3 : 3 ≤ v.length
    · rw [hcv, if_pos h3, findCluster_eq_none (sortReadings v) hall]
    · rw [hcv, if_neg h3]

/-- C1 witness: on three violating battery readings spanning 299 seconds
the scan qualifies at index 0 and emits the alert carrying the first
reading's original timestamp text. -/
theorem C1_first_cluster_witness :
    (check_violations stateC1 (7, "BATT")).alerts
      = pushIfNew [] ⟨7, "RED LOW", "BATT", "t0"⟩ :=
  (C1_first_cluster stateC1 (7, "BATT") "RED LOW" rfl).1 0 ⟨0, 5, 10, "t0"⟩
    (by decide) (fun j hj => absurd hj (Nat.not_lt_zero j)) (by decide)

/-- C4: the 5-minute window is inclusive — with the key's sorted violating
readings being exactly a triple, a first-to-third span of exactly 5
minutes produces the alert, while a span of 5 minutes plus one
microsecond leaves the alert list unchanged. -/
theorem C4_window_boundary (s : MonitorState) (key : Int × String) (sev : String)
    (r1 r2 r3 : Reading)
    (hsev : severityOf key.2 = some sev)
    (hl : sortedViolating s key = [r1, r2, r3]) :
    (r3.timestamp - r1.timestamp = timeWindow →
      (check_violations s key).alerts
        = pushIfNew s.alerts ⟨key.1, sev, key.2, r1.original⟩)
    ∧ (r3.timestamp - r1.timestamp = timeWindow + 1 →
      (check_violations s key).alerts = s.alerts) := by
  obtain ⟨v, hv⟩ := violationFilter_severity key.2 sev (s.readings key) hsev
  have hsort : sortedViolating s key = sortReadings v := sortedViolating_of_filter hv
  have hcv := check_violations_of_filter hv
  have hlen : (sortReadings v).length = v.length := List.length_insertionSort tsLe v
  rw [hsort] at hl
  have h3 : 3 ≤ v.length := by
    rw [← hlen, hl]
    simp
  constructor
  · intro hspan
    have hc : r3.timestamp - r1.timestamp ≤ timeWindow := le_of_eq hspan
    have hfc : findCluster [r1, r2, r3] = some r1 := by
      show (if r3.timestamp - r1.timestamp ≤ timeWindow then some r1
            else findCluster [r2, r3]) = some r1
      rw [if_pos hc]
    rw [hcv, if_pos h3, hl, hfc]
  · intro hspan
    have hc : ¬ (r3.timestamp - r1.timestamp ≤ timeWindow) := by omega
    have hfc : findCluster [r1, r2, r3] = none := by
      show (if r3.timestamp - r1.timestamp ≤ timeWindow then some r1
            else findCluster [r2, r3]) = none
      rw [if_neg hc]
      rfl
    rw [hcv, if_pos h3, hl, hfc]

/-- C4 witness: a concrete exactly-5-minute triple alerts; the same triple
stretched by one microsecond does not. -/
theorem C4_window_boundary_witness :
    (check_violations stateC4a (7, "BATT")).alerts
        = pushIfNew [] ⟨7, "RED LOW", "BATT", "a0"⟩
    ∧ (check_violations stateC4b (7, "BATT")).alerts = [] :=
  ⟨(C4_window_boundary stateC4a (7, "BATT") "RED LOW" ⟨0, 5, 10, "a0"⟩
      ⟨100, 5, 10, "a1"⟩ ⟨300000000, 5, 10, "a2"⟩ rfl (by decide)).1 (by decide),
   (C4_window_boundary stateC4b (7, "BATT") "RED LOW" ⟨0, 5, 10, "b0"⟩
      ⟨100, 5, 10, "b1"⟩ ⟨300000001, 5, 10, "b2"⟩ rfl (by decide)).2 (by decide)⟩

/-- C2: a candidate alert equal in all four fields to one already present
is silently discarded (`pushIfNew` is the identity on members); one ingest
leaves the alert list unchanged or appends a single alert not previously
present; hence the no-duplicates predicate on the alert sequence is an
invariant preserved by every ingest. -/
theorem C2_no_duplicate_alerts (s : MonitorState) (d : ParsedData) (s' : MonitorState)
    (hnd : s.alerts.Nodup) (h : process_telemetry s d = .ok s') :
    s'.alerts.Nodup
    ∧ (∀ a : Alert, a ∈ s.alerts → pushIfNew s.alerts a = s.alerts)
    ∧ (s'.alerts = s.alerts ∨ ∃ a, a ∉ s.alerts ∧ s'.alerts = s.alerts ++ [a]) := by
  obtain ⟨dt, _, hs'⟩ := process_telemetry_ok h
  set s1 : MonitorState :=
    { s with readings := (upd s.readings (d.satelliteId, d.component)
        (s.readings (d.satelliteId, d.component) ++ [mkReading d dt])) } with hs1
  have halerts1 : s1.alerts = s.alerts := rfl
  have hcases := check_violations_alerts_cases s1 (d.satelliteId, d.component)
  rw [halerts1, ← hs'] at hcases
  refine ⟨?_, ?_, hcases⟩
  · rcases hcases with hsame | ⟨a, hna, happ⟩
    · rw [hsame]
      exact hnd
    · rw [happ]
      exact List.Nodup.append hnd (List.nodup_singleton a)
        (by simpa using hna)
  · intro a ha
    unfold pushIfNew
    rw [if_pos ha]

/-- C2 witness: ingesting one battery record into a fresh monitor
preserves the no-duplicates invariant. -/
theorem C2_no_duplicate_alerts_witness :
    stateC2.alerts.Nodup
    ∧ (∀ a : Alert, a ∈ initState.alerts → pushIfNew initState.alerts a = initState.alerts)
    ∧ (stateC2.alerts = initState.alerts
        ∨ ∃ a, a ∉ initState.alerts ∧ stateC2.alerts = initState.alerts ++ [a]) :=
  C2_no_duplicate_alerts initState dataC2 stateC2 List.nodup_nil rfl

/-- C6: a reading whose component is neither `"TSTAT"` nor `"BATT"` is
still appended to its key's history by ingest, but the alert list is
unchanged — `check_violations` returns early for the unknown component. -/
theorem C6_unknown_component (s : MonitorState) (d : ParsedData) (s' : MonitorState)
    (hcomp : d.component ≠ "TSTAT" ∧ d.component ≠ "BATT")
    (h : process_telemetry s d = .ok s') :
    (∃ r : Reading, s'.readings (d.satelliteId, d.component)
        = s.readings (d.satelliteId, d.component) ++ [r])
    ∧ s'.alerts = s.alerts := by
  obtain ⟨dt, _, hs'⟩ := process_telemetry_ok h
  have hvf : violationFilter d.component
      (s.readings (d.satelliteId, d.component) ++ [mkReading d dt]) = none := by
    unfold violationFilter
    rw [if_neg hcomp.1, if_neg hcomp.2]
  set s1 : MonitorState :=
    { s with readings := (upd s.readings (d.satelliteId, d.component)
        (s.readings (d.satelliteId, d.component) ++ [mkReading d dt])) } with hs1
  have hread1 : s1.readings (d.satelliteId, d.component)
      = s.readings (d.satelliteId, d.component) ++ [mkReading d dt] := by
    simp [hs1, upd]
  have hcv : check_violations s1 (d.satelliteId, d.component) = s1 :=
    check_violations_of_none (by rw [hread1]; exact hvf)
  rw [hs', hcv]
  exact ⟨⟨mkReading d dt, hread1⟩, rfl⟩

/-- C6 witness: an ingested `"GYRO"` record (value far below the red-low
limit) is recorded in the history and emits no alert. -/
theorem C6_unknown_component_witness :
    (∃ r : Reading, stateC6.readings (7, "GYRO")
        = initState.readings (7, "GYRO") ++ [r])
    ∧ stateC6.alerts = initState.alerts :=
  C6_unknown_component initState dataC6 stateC6 ⟨by decide, by decide⟩ rfl

/-- C7: the reading stored by a successful ingest carries
`limit = red_high_limit` exactly when the component equals the thermostat
marker `"TSTAT"`, and `limit = red_low_limit` for every other component
(battery and unknown codes alike). -/
theorem C7_limit_selection (s : MonitorState) (d : ParsedData) (s' : MonitorState)
    (h : process_telemetry s d = .ok s') :
    ∃ dt, parseTimestampTwo d.timestamp = some dt ∧
      s'.readings (d.satelliteId, d.component)
        = s.readings (d.satelliteId, d.component) ++ [mkReading d dt]
      ∧ (d.component = "TSTAT" → (mkReading d dt).limit = d.red_high_limit)
      ∧ (d.component ≠ "TSTAT" → (mkReading d dt).limit = d.red_low_limit) := by
  obtain ⟨dt, hdt, hs'⟩ := process_telemetry_ok h
  set s1 : MonitorState :=
    { s with readings := (upd s.readings (d.satelliteId, d.component)
        (s.readings (d.satelliteId, d.component) ++ [mkReading d dt])) } with hs1
  have hread1 : s1.readings (d.satelliteId, d.component)
      = s.readings (d.satelliteId, d.component) ++ [mkReading d dt] := by
    simp [hs1, upd]
  have hread : s'.readings = s1.readings := by
    rw [hs']
    exact check_violations_readings s1 (d.satelliteId, d.component)
  refine ⟨dt, hdt, by rw [hread]; exact hread1, ?_, ?_⟩
  · intro hT
    unfold mkReading
    dsimp only
    rw [if_pos hT]
  · intro hT
    unfold mkReading
    dsimp only
    rw [if_neg hT]

/-- `padDigits` always produces exactly its requested width. -/
lemma padDigits_length (w : Nat) : ∀ n : Nat, (padDigits w n).length = w := by
  induction w with
  | zero => intro n; rfl
  | succ w ih =>
    intro n
    simp only [padDigits, List.length_append, List.length_cons, List.length_nil, ih]

/-- Zero-padded digit strings split at any point: the high digits are the
padding of the quotient. -/
lemma padDigits_add (a b : Nat) : ∀ n : Nat,
    padDigits (a + b) n = padDigits a (n / 10 ^ b) ++ padDigits b n := by
  induction b with
  | zero =>
    intro n
    simp [padDigits]
  | succ b ih =>
    intro n
    have hdiv : n / 10 / 10 ^ b = n / 10 ^ (b + 1) := by
      rw [Nat.div_div_eq_div_mul, Nat.pow_succ, Nat.mul_comm]
    show padDigits (a + b + 1) n = _
    simp only [padDigits]
    rw [ih (n / 10), List.append_assoc, hdiv]

/-- Dropping the last three characters of the `strftime` output truncates
the microseconds to their three leading (millisecond) digits. -/
lemma strftime_take (dt : DateTime) :
    (strftimeIso dt).take ((strftimeIso dt).length - 3)
      = isoHead dt ++ padDigits 3 (dt.microsecond / 1000) := by
  have h6 : (padDigits 6 dt.microsecond).length = 6 := padDigits_length 6 _
  have hsplit : padDigits 6 dt.microsecond
      = padDigits 3 (dt.microsecond / 1000) ++ padDigits 3 dt.microsecond := by
    have h := padDigits_add 3 3 dt.microsecond
    rw [show (10:Nat) ^ 3 = 1000 from by norm_num] at h
    exact h
  unfold strftimeIso
  rw [List.length_append, h6]
  rw [show (isoHead dt).length + 6 - 3 = (isoHead dt).length + 3 from by omega]
  rw [List.take_append_eq_append_take]
  rw [List.take_of_length_le (by omega)]
  rw [show (isoHead dt).length + 3 - (isoHead dt).length = 3 from by omega]
  rw [hsplit]
  rw [List.take_left' (padDigits_length 3 (dt.microsecond / 1000))]

/-- The whole-second format constructs its datetime with zero
microseconds. -/
lemma parseTsWhole_microsecond {text : String} {dt : DateTime}
    (h : parseTsWhole text = some dt) : dt.microsecond = 0 := by
  unfold parseTsWhole at h
  rcases hst : parseStamp text.data with _ | ⟨y, mo, d, hh, mi, ss, cs⟩
  · rw [hst] at h
    exact Option.noConfusion h
  · rw [hst] at h
    simp only [Option.bind_eq_bind, Option.some_bind] at h
    rcases cs with _ | ⟨c, cs'⟩
    · unfold mkDateTime at h
      by_cases hok : 1 ≤ y ∧ d ≤ daysInMonth y mo
      · rw [if_pos hok] at h
        rw [← Option.some.inj h]
      · rw [if_neg hok] at h
        exact Option.noConfusion h
    · exact Option.noConfusion h

/-- C8: output formatting re-parses the preserved timestamp text with the
fractional-first / whole-second-fallback parser and renders
`YYYY-MM-DDTHH:MM:SS.` plus the three leading microsecond digits
(truncating division by 1000, not rounding) plus a literal `Z`; a text
only the whole-second format accepts carries zero microseconds, hence
renders `.000`; `get_alerts` applies exactly this to each alert. -/
theorem C8_output_format (text : String) (dt : DateTime)
    (h : parseTimestampTwo text = some dt) :
    format_alert_timestamp text
      = .ok (String.mk (isoHead dt ++ padDigits 3 (dt.microsecond / 1000)) ++ "Z")
    ∧ (parseTsFrac text = none → dt.microsecond = 0)
    ∧ ∀ (rs : Int × String → List Reading) (a : Alert), a.timestamp = text →
        get_alerts ⟨rs, [a]⟩
          = .ok [⟨a.satelliteId, a.severity, a.component,
              String.mk (isoHead dt ++ padDigits 3 (dt.microsecond / 1000)) ++ "Z"⟩] := by
  have hfmt : format_alert_timestamp text
      = .ok (String.mk (isoHead dt ++ padDigits 3 (dt.microsecond / 1000)) ++ "Z") := by
    unfold format_alert_timestamp
    rw [h]
    show Except.ok (String.mk ((strftimeIso dt).take ((strftimeIso dt).length - 3)) ++ "Z") = _
    rw [strftime_take]
  refine ⟨hfmt, ?_, ?_⟩
  · intro hfr
    have hwhole : parseTsWhole text = some dt := by
      unfold parseTimestampTwo at h
      rw [hfr] at h
      exact h
    exact parseTsWhole_microsecond hwhole
  · intro rs a hts
    unfold get_alerts
    show formatAlerts [a] = _
    rw [formatAlerts, hts, hfmt]
    rfl

/-- C8 witness: `999999` microseconds render truncated as `.999` (not
rounded up), and a whole-second text renders with `.000`. -/
theorem C8_output_format_witness :
    format_alert_timestamp "20240101 12:34:56.999999" = .ok "2024-01-01T12:34:56.999Z"
    ∧ format_alert_timestamp "20240101 12:34:05" = .ok "2024-01-01T12:34:05.000Z" :=
  ⟨((C8_output_format "20240101 12:34:56.999999" ⟨2024, 1, 1, 12, 34, 56, 999999⟩
      (by decide)).1).trans (by decide),
   ((C8_output_format "20240101 12:34:05" ⟨2024, 1, 1, 12, 34, 5, 0⟩
      (by decide)).1).trans (by decide)⟩

/-- C7 witness: a concrete thermostat record stores the red-high limit on
its reading. -/
theorem C7_limit_selection_witness :
    ∃ dt, parseTimestampTwo dataC7.timestamp = some dt ∧
      stateC7.readings (dataC7.satelliteId, dataC7.component)
        = initState.readings (dataC7.satelliteId, dataC7.component) ++ [mkReading dataC7 dt]
      ∧ (dataC7.component = "TSTAT" → (mkReading dataC7 dt).limit = dataC7.red_high_limit)
      ∧ (dataC7.component ≠ "TSTAT" → (mkReading dataC7 dt).limit = dataC7.red_low_limit) :=
  C7_limit_selection initState dataC7 stateC7 rfl

/-- C5: a raw record with a missing field, or malformed numeric text in
an integer or float position, makes `parse_line` fail with an error
identifying an offending field, and the error propagates through the
`process_file` loop to the caller — nothing catches it. -/
theorem C5_parse_error_propagates (s : MonitorState) (line : String)
    (rest : List String) (hnb : strip line ≠ "")
    (hbad : ∃ j, j < 8 ∧ fieldFault (splitFields line) j = true) :
    ∃ e : PyError,
      parse_line line = .error e
      ∧ (∃ j, e.fieldIdx = some j ∧ j < 8 ∧ fieldFault (splitFields line) j = true)
      ∧ process_file s (line :: rest) = .error e := by
  set fields := splitFields line with hfields
  have hstep : ∀ e : PyError, parse_line line = .error e →
      process_file s (line :: rest) = .error e := by
    intro e he
    unfold process_file
    rw [List.foldlM_cons]
    have hpl : processLine s line = .error e := by
      unfold processLine
      rw [if_neg hnb, he]
      rfl
    rw [hpl]
    rfl
  have mk : ∀ (e : PyError) (j : Nat), e.fieldIdx = some j → j < 8 →
      fieldFault fields j = true → parse_line line = .error e →
      ∃ e : PyError,
        parse_line line = .error e
        ∧ (∃ j, e.fieldIdx = some j ∧ j < 8 ∧ fieldFault fields j = true)
        ∧ process_file s (line :: rest) = .error e :=
    fun e j hidx hj hff hpe => ⟨e, hpe, ⟨j, hidx, hj, hff⟩, hstep e hpe⟩
  rcases hg0 : fields[0]? with _ | t0
  · exact mk (.indexError 0) 0 rfl (by omega) (by simp [fieldFault, hg0])
      (by simp [parse_line, ← hfields, strField, hg0, exbind_error])
  rcases hg1 : fields[1]? with _ | t1
  · exact mk (.indexError 1) 1 rfl (by omega) (by simp [fieldFault, hg1])
      (by simp [parse_line, ← hfields, strField, intField, hg0, hg1,
        exbind_ok, exbind_error])
  rcases hp1 : parseInt t1 with _ | n1
  · exact mk (.intError 1 t1) 1 rfl (by omega) (by simp [fieldFault, hg1, hp1])
      (by simp [parse_line, ← hfields, strField, intField, hg0, hg1, hp1,
        exbind_ok, exbind_error])
  rcases hg2 : fields[2]? with _ | t2
  · exact mk (.indexError 2) 2 rfl (by omega) (by simp [fieldFault, hg2])
      (by simp [parse_line, ← hfields, strField, intField, floatField, hg0, hg1, hp1,
        hg2, exbind_ok, exbind_error])
  rcases hp2 : parseFloat t2 with _ | q2
  · exact mk (.floatError 2 t2) 2 rfl (by omega) (by simp [fieldFault, hg2, hp2])
      (by simp [parse_line, ← hfields, strField, intField, floatField, hg0, hg1, hp1,
        hg2, hp2, exbind_ok, exbind_error])
  rcases hg3 : fields[3]? with _ | t3
  · exact mk (.indexError 3) 3 rfl (by omega) (by simp [fieldFault, hg3])
      (by simp [parse_line, ← hfields, strField, intField, floatField, hg0, hg1, hp1,
        hg2, hp2, hg3, exbind_ok, exbind_error])
  rcases hp3 : parseFloat t3 with _ | q3
  · exact mk (.floatError 3 t3) 3 rfl (by omega) (by simp [fieldFault, hg3, hp3])
      (by simp [parse_line, ← hfields, strField, intField, floatField, hg0, hg1, hp1,
        hg2, hp2, hg3, hp3, exbind_ok, exbind_error])
  rcases hg4 : fields[4]? with _ | t4
  · exact mk (.indexError 4) 4 rfl (by omega) (by simp [fieldFault, hg4])
      (by simp [parse_line, ← hfields, strField, intField, floatField, hg0, hg1, hp1,
        hg2, hp2, hg3, hp3, hg4, exbind_ok, exbind_error])
  rcases hp4 : parseFloat t4 with _ | q4
  · exact mk (.floatError 4 t4) 4 rfl (by omega) (by simp [fieldFault, hg4, hp4])
      (by simp [parse_line, ← hfields, strField, intField, floatField, hg0, hg1, hp1,
        hg2, hp2, hg3, hp3, hg4, hp4, exbind_ok, exbind_error])
  rcases hg5 : fields[5]? with _ | t5
  · exact mk (.indexError 5) 5 rfl (by omega) (by simp [fieldFault, hg5])
      (by simp [parse_line, ← hfields, strField, intField, floatField, hg0, hg1, hp1,
        hg2, hp2, hg3, hp3, hg4, hp4, hg5, exbind_ok, exbind_error])
  rcases hp5 : parseFloat t5 with _ | q5
  · exact mk (.floatError 5 t5) 5 rfl (by omega) (by simp [fieldFault, hg5, hp5])
      (by simp [parse_line, ← hfields, strField, intField, floatField, hg0, hg1, hp1,
        hg2, hp2, hg3, hp3, hg4, hp4, hg5, hp5, exbind_ok, exbind_error])
  rcases hg6 : fields[6]? with _ | t6
  · exact mk (.indexError 6) 6 rfl (by omega) (by simp [fieldFault, hg6])
      (by simp [parse_line, ← hfields, strField, intField, floatField, hg0, hg1, hp1,
        hg2, hp2, hg3, hp3, hg4, hp4, hg5, hp5, hg6, exbind_ok, exbind_error])
  rcases hp6 : parseFloat t6 with _ | q6
  · exact mk (.floatError 6 t6) 6 rfl (by omega) (by simp [fieldFault, hg6, hp6])
      (by simp [parse_line, ← hfields, strField, intField, floatField, hg0, hg1, hp1,
        hg2, hp2, hg3, hp3, hg4, hp4, hg5, hp5, hg6, hp6, exbind_ok, exbind_error])
  rcases hg7 : fields[7]? with _ | t7
  · exact mk (.indexError 7) 7 rfl (by omega) (by simp [fieldFault, hg7])
      (by simp [parse_line, ← hfields, strField, intField, floatField, hg0, hg1, hp1,
        hg2, hp2, hg3, hp3, hg4, hp4, hg5, hp5, hg6, hp6, hg7, exbind_ok, exbind_error])
  exfalso
  obtain ⟨j, hj, hff⟩ := hbad
  interval_cases j <;>
    simp [fieldFault, hg0, hg1, hp1, hg2, hp2, hg3, hp3, hg4, hp4, hg5, hp5,
      hg6, hp6, hg7] at hff

/-- C5 witness: a record whose satellite-id field is non-numeric fails
with an error naming field 1 and aborts the file run. -/
theorem C5_parse_error_propagates_witness :
    ∃ e : PyError,
      parse_line "20240101 00:00:00.000|abc|1.0" = .error e
      ∧ (∃ j, e.fieldIdx = some j ∧ j < 8
          ∧ fieldFault (splitFields "20240101 00:00:00.000|abc|1.0") j = true)
      ∧ process_file initState ["20240101 00:00:00.000|abc|1.0"] = .error e :=
  C5_parse_error_propagates initState "20240101 00:00:00.000|abc|1.0" []
    (by decide) ⟨1, by omega, by decide⟩

set_option maxRecDepth 4000 in
/-- C10: `parse_line` succeeds on any line whose first 8 pipe-delimited
fields are well-formed, no matter how many fields follow them — the
result is built from fields 0–7 only, so extra fields are silently
ignored and no length check rejects them. -/
theorem C10_extra_fields_ignored (line : String) (sid : Int) (rh yh yl rl rv : ℚ)
    (hlen : 8 ≤ (splitFields line).length)
    (h1 : parseInt ((splitFields line).getD 1 "") = some sid)
    (h2 : parseFloat ((splitFields line).getD 2 "") = some rh)
    (h3 : parseFloat ((splitFields line).getD 3 "") = some yh)
    (h4 : parseFloat ((splitFields line).getD 4 "") = some yl)
    (h5 : parseFloat ((splitFields line).getD 5 "") = some rl)
    (h6 : parseFloat ((splitFields line).getD 6 "") = some rv) :
    parse_line line = .ok
      ⟨(splitFields line).getD 0 "", sid, rh, yh, yl, rl, rv,
        (splitFields line).getD 7 ""⟩ := by
  have hget : ∀ j, j < 8 →
      ∃ t, (splitFields line)[j]? = some t ∧ (splitFields line).getD j "" = t := by
    intro j hj
    rcases hq : (splitFields line)[j]? with _ | t
    · rw [List.getElem?_eq_none_iff] at hq
      omega
    · exact ⟨t, rfl, by rw [List.getD_eq_getElem?_getD, hq]; rfl⟩
  obtain ⟨t0, hq0, hd0⟩ := hget 0 (by omega)
  obtain ⟨t1, hq1, hd1⟩ := hget 1 (by omega)
  obtain ⟨t2, hq2, hd2⟩ := hget 2 (by omega)
  obtain ⟨t3, hq3, hd3⟩ := hget 3 (by omega)
  obtain ⟨t4, hq4, hd4⟩ := hget 4 (by omega)
  obtain ⟨t5, hq5, hd5⟩ := hget 5 (by omega)
  obtain ⟨t6, hq6, hd6⟩ := hget 6 (by omega)
  obtain ⟨t7, hq7, hd7⟩ := hget 7 (by omega)
  rw [hd1] at h1
  rw [hd2] at h2
  rw [hd3] at h3
  rw [hd4] at h4
  rw [hd5] at h5
  rw [hd6] at h6
  rw [hd0, hd7]
  simp [parse_line, strField, intField, floatField,
    hq0, hq1, hq2, hq3, hq4, hq5, hq6, hq7,
    h1, h2, h3, h4, h5, h6, exbind_ok, expure]

/-- C10 witness: a ten-field line parses, using only its first eight
fields. -/
theorem C10_extra_fields_ignored_witness :
    parse_line "20240101 00:00:00|5|100.0|90.0|20.0|10.0|42.0|TSTAT|extra|junk"
      = .ok ⟨"20240101 00:00:00", 5, 100, 90, 20, 10, 42, "TSTAT"⟩ :=
  C10_extra_fields_ignored "20240101 00:00:00|5|100.0|90.0|20.0|10.0|42.0|TSTAT|extra|junk"
    5 100 90 20 10 42 (by decide) (by decide) (by decide) (by decide) (by decide)
    (by decide) (by decide)

end SatMon
